import Mathlib

/-!
# NativeHost: bootstrap of the .NET hosting layer

A shallow embedding of `src/NativeHost/nativehost.cpp`.

* Pointers are natural numbers, `0` being `nullptr`.
* The five file-scope globals holding the hostfxr exports form `Exports`.
* Everything the program asks of the outside world (nethost, the dynamic
  loader, the functions behind the hostfxr exports, the managed delegate) is
  an oracle field of `Env`; every such call is appended to a trace.
* `assert` aborts the process unless the translation unit was compiled with
  `NDEBUG`; the build mode is the field `Env.asserts`.
* A call through a null function pointer has no defined behaviour and ends
  the run in `Result.undef`.
-/

namespace NativeHost

/-- Raw pointer value; `0` is `nullptr`. -/
abbrev Ptr := Nat

/-- Modelled from the spec: the enum `hostfxr_delegate_type` is declared in
`hostfxr.h`, which is not among the sources. Only the enumerator the program
names is kept apart; every other delegate kind is `other n`. -/
inductive hostfxr_delegate_type where
  | hdt_load_assembly_and_get_function_pointer
  | other (n : Nat)
  deriving DecidableEq, Repr

/-- The `delegate_type_name` argument of the resolution delegate, a
`char_t const*`: `nullptr`, the reserved value `UNMANAGEDCALLERSONLY_METHOD`
(declared in `coreclr_delegates.h`), or the name of a managed delegate type. -/
inductive DelegateTypeName where
  | null
  | UNMANAGEDCALLERSONLY_METHOD
  | name (s : String)
  deriving DecidableEq, Repr

/-- The local struct `lib_args` of `run_component_example`. -/
structure lib_args where
  message : String
  number : Int
  deriving DecidableEq, Repr

/-- The native functions the program hands to managed code. -/
inductive NativeCallback where
  | test_fn
  | lambda_int_to_double
  | lambda_string_to_string
  deriving DecidableEq, Repr

/-- The five globals declared at the top of the anonymous namespace. -/
structure Exports where
  init_for_cmd_line_fptr : Ptr
  init_for_config_fptr : Ptr
  get_delegate_fptr : Ptr
  run_app_fptr : Ptr
  close_fptr : Ptr
  deriving DecidableEq, Repr

/-- Observable actions, in program order. -/
inductive Event where
  | get_hostfxr_path (assembly_path : Option String)
  | load_library (path : String)
  | get_export (h : Ptr) (name : String)
  | init_for_config (fn : Ptr) (config_path : String)
  | get_delegate (fn : Ptr) (cxt : Ptr) (kind : hostfxr_delegate_type)
  | close (fn : Ptr) (cxt : Ptr)
  | cerr_init_failed (rc : Int)
  | cerr_get_delegate_failed (rc : Int)
  | wprintf_config_path (config_path : String)
  | resolve (fn : Ptr) (assembly_path type_name method_name : String)
      (delegate_type_name : DelegateTypeName)
  | call_component_entry_point (fn : Ptr) (args : lib_args) (size : Nat)
  | call_custom_entry_point (fn : Ptr) (args : lib_args)
  | call_send_callback (fn : Ptr) (cb : NativeCallback)
  deriving DecidableEq, Repr

/-- Program state: the globals and the trace of actions so far. -/
structure State where
  exports : Exports
  trace : List Event
  deriving DecidableEq, Repr

/-- The outside world. An output parameter is `none` when the callee stored
nothing in it. -/
structure Env where
  /-- True unless compiled with `NDEBUG`. -/
  asserts : Bool
  /-- Size in bytes of a data pointer on the target. -/
  pointer_size : Nat
  /-- Hint path to result code and buffer contents. -/
  get_hostfxr_path : Option String → Int × String
  /-- The call `dlopen` / `LoadLibraryW`. -/
  dlopen : String → Ptr
  /-- The call `dlsym` / `GetProcAddress`. -/
  dlsym : Ptr → String → Ptr
  /-- Behaviour of the function at `fn` called as initialize-by-config. -/
  init_for_config : Ptr → String → Int × Option Ptr
  /-- Behaviour of the function at `fn` called as get-runtime-delegate. -/
  get_delegate : Ptr → Ptr → hostfxr_delegate_type → Int × Option Ptr
  /-- Behaviour of the function at `fn` called as
  load-assembly-and-get-function-pointer. -/
  resolve : Ptr → String → String → String → DelegateTypeName → Int × Option Ptr
  /-- Contents of a local pointer variable declared without initialiser,
  by the name of the function declaring it. -/
  indeterminate : String → Ptr

/-- How a computation ends. -/
inductive Result (α : Type) where
  | ok (a : α) (s : State)
  | abort (msg : String) (s : State)
  | undef (s : State)
  deriving DecidableEq, Repr

/-- State at the end of a computation. -/
def Result.state {α : Type} : Result α → State
  | .ok _ s => s
  | .abort _ s => s
  | .undef s => s

/-- Computations over the program state. -/
def M (α : Type) : Type := State → Result α

/-- Sequencing: a run that aborted or went undefined stays so. -/
def M.bind {α β : Type} (m : M α) (f : α → M β) : M β := fun s =>
  match m s with
  | .ok a s1 => f a s1
  | .abort msg s1 => .abort msg s1
  | .undef s1 => .undef s1

instance : Monad M where
  pure a := fun s => .ok a s
  bind := M.bind

/-- Append an action to the trace. -/
def emit (e : Event) : M Unit := fun s => .ok () { s with trace := s.trace ++ [e] }

/-- Read the globals. -/
def getExports : M Exports := fun s => .ok s.exports s

/-- Overwrite the globals. -/
def setExports (f : Exports → Exports) : M Unit := fun s =>
  .ok () { s with exports := f s.exports }

/-- The macro `assert(cond && msg)`. -/
def assert (env : Env) (cond : Bool) (msg : String) : M Unit := fun s =>
  if env.asserts && !cond then .abort msg s else .ok () s

/-- A call through a function pointer: undefined when the pointer is null. -/
def callThrough {α : Type} (fn : Ptr) (e : Event) (r : α) : M α := fun s =>
  if fn = 0 then .undef s else .ok r { s with trace := s.trace ++ [e] }

def EXIT_SUCCESS : Int := 0

def EXIT_FAILURE : Int := 1

/-- The function `load_library` (both platform variants). -/
def load_library (env : Env) (path : String) : M Ptr := do
  emit (Event.load_library path)
  let h := env.dlopen path
  assert env (h != 0) "h != nullptr"
  return h

/-- The function template `get_export`. -/
def get_export (env : Env) (h : Ptr) (name : String) : M Ptr := do
  emit (Event.get_export h name)
  let f := env.dlsym h name
  assert env (f != 0) "f != nullptr"
  return f

/-- The function `load_hostfxr`. -/
def load_hostfxr (env : Env) (assembly_path : Option String) : M Bool := do
  emit (Event.get_hostfxr_path assembly_path)
  let (rc, buffer) := env.get_hostfxr_path assembly_path
  if rc != 0 then
    return false
  let lib ← load_library env buffer
  let p ← get_export env lib "hostfxr_initialize_for_dotnet_command_line"
  setExports fun g => { g with init_for_cmd_line_fptr := p }
  let p ← get_export env lib "hostfxr_initialize_for_runtime_config"
  setExports fun g => { g with init_for_config_fptr := p }
  let p ← get_export env lib "hostfxr_get_runtime_delegate"
  setExports fun g => { g with get_delegate_fptr := p }
  let p ← get_export env lib "hostfxr_run_app"
  setExports fun g => { g with run_app_fptr := p }
  let p ← get_export env lib "hostfxr_close"
  setExports fun g => { g with close_fptr := p }
  let g ← getExports
  return (g.init_for_config_fptr != 0 && g.get_delegate_fptr != 0 && g.close_fptr != 0)

/-- The function `get_dotnet_load_assembly`. -/
def get_dotnet_load_assembly (env : Env) (config_path : String) : M Ptr := do
  let load_assembly_and_get_function_pointer : Ptr := 0
  let cxt : Ptr := 0
  let g ← getExports
  let (rc, out) ← callThrough g.init_for_config_fptr
    (Event.init_for_config g.init_for_config_fptr config_path)
    (env.init_for_config g.init_for_config_fptr config_path)
  let cxt := out.getD cxt
  if rc != 0 || cxt == 0 then
    emit (Event.cerr_init_failed rc)
    let g ← getExports
    callThrough g.close_fptr (Event.close g.close_fptr cxt) ()
    return 0
  let g ← getExports
  let (rc, out) ← callThrough g.get_delegate_fptr
    (Event.get_delegate g.get_delegate_fptr cxt
      hostfxr_delegate_type.hdt_load_assembly_and_get_function_pointer)
    (env.get_delegate g.get_delegate_fptr cxt
      hostfxr_delegate_type.hdt_load_assembly_and_get_function_pointer)
  let load_assembly_and_get_function_pointer :=
    out.getD load_assembly_and_get_function_pointer
  if rc != 0 || load_assembly_and_get_function_pointer == 0 then
    emit (Event.cerr_get_delegate_failed rc)
  let g ← getExports
  callThrough g.close_fptr (Event.close g.close_fptr cxt) ()
  return load_assembly_and_get_function_pointer

/-- The function `pass_fnptr_to_dotnet`; the value left in `rc` is returned. -/
def pass_fnptr_to_dotnet (env : Env) (load_assembly_and_get_function_pointer : Ptr)
    (dotnetlib_path dotnet_type : String) : M Int := do
  let callback : Ptr := env.indeterminate "pass_fnptr_to_dotnet"
  let (rc, out) ← callThrough load_assembly_and_get_function_pointer
    (Event.resolve load_assembly_and_get_function_pointer dotnetlib_path dotnet_type
      "TestFnPtr" DelegateTypeName.UNMANAGEDCALLERSONLY_METHOD)
    (env.resolve load_assembly_and_get_function_pointer dotnetlib_path dotnet_type
      "TestFnPtr" DelegateTypeName.UNMANAGEDCALLERSONLY_METHOD)
  let callback := out.getD callback
  assert env (callback != 0) "Unable to load function TestFnPtr"
  callThrough callback (Event.call_send_callback callback NativeCallback.test_fn) ()
  return rc

/-- The function `pass_fnptr_to_dotnet_witharguments`. -/
def pass_fnptr_to_dotnet_witharguments (env : Env)
    (load_assembly_and_get_function_pointer : Ptr)
    (dotnetlib_path dotnet_type : String) : M Int := do
  let callback : Ptr := env.indeterminate "pass_fnptr_to_dotnet_witharguments"
  let (rc, out) ← callThrough load_assembly_and_get_function_pointer
    (Event.resolve load_assembly_and_get_function_pointer dotnetlib_path dotnet_type
      "TestFnPtrWithArgs" DelegateTypeName.UNMANAGEDCALLERSONLY_METHOD)
    (env.resolve load_assembly_and_get_function_pointer dotnetlib_path dotnet_type
      "TestFnPtrWithArgs" DelegateTypeName.UNMANAGEDCALLERSONLY_METHOD)
  let callback := out.getD callback
  assert env (callback != 0) "Unable to load function TestFnPtrWithArgs"
  callThrough callback
    (Event.call_send_callback callback NativeCallback.lambda_int_to_double) ()
  return rc

/-- The function `pass_fnptr_with_strings`. -/
def pass_fnptr_with_strings (env : Env) (load_assembly_and_get_function_pointer : Ptr)
    (dotnetlib_path dotnet_type : String) : M Int := do
  let callback : Ptr := env.indeterminate "pass_fnptr_with_strings"
  let (rc, out) ← callThrough load_assembly_and_get_function_pointer
    (Event.resolve load_assembly_and_get_function_pointer dotnetlib_path dotnet_type
      "TestStringInputOutput" DelegateTypeName.UNMANAGEDCALLERSONLY_METHOD)
    (env.resolve load_assembly_and_get_function_pointer dotnetlib_path dotnet_type
      "TestStringInputOutput" DelegateTypeName.UNMANAGEDCALLERSONLY_METHOD)
  let callback := out.getD callback
  assert env (callback != 0) "Unable to load function TestStringInputOutput"
  callThrough callback
    (Event.call_send_callback callback NativeCallback.lambda_string_to_string) ()
  return rc

/-- The value `sizeof(lib_args)`: a pointer followed by an `int32_t`, padded
to the alignment of the struct. -/
def sizeof_lib_args (pointer_size : Nat) : Nat :=
  let align := max pointer_size 4
  (pointer_size + 4 + align - 1) / align * align

/-- The function `run_component_example`. -/
def run_component_example (env : Env) (root_path : String) : M Int := do
  if !(← load_hostfxr env none) then
    assert env false "Failure: load_hostfxr()"
    return EXIT_FAILURE
  let config_path := root_path ++ "DotNetLib.runtimeconfig.json"
  emit (Event.wprintf_config_path config_path)
  let load_assembly_and_get_function_pointer ← get_dotnet_load_assembly env config_path
  assert env (load_assembly_and_get_function_pointer != 0)
    "Failure: get_dotnet_load_assembly()"
  let dotnetlib_path := root_path ++ "DotNetLib.dll"
  let dotnet_type := "DotNetLib.Lib, DotNetLib"
  let dotnet_type_method := "Hello"
  let hello : Ptr := 0
  let (rc, out) ← callThrough load_assembly_and_get_function_pointer
    (Event.resolve load_assembly_and_get_function_pointer dotnetlib_path dotnet_type
      dotnet_type_method DelegateTypeName.null)
    (env.resolve load_assembly_and_get_function_pointer dotnetlib_path dotnet_type
      dotnet_type_method DelegateTypeName.null)
  let hello := out.getD hello
  assert env (rc == 0 && hello != 0) "Failure: load_assembly_and_get_function_pointer()"
  (List.range 3).forM fun i => do
    let args : lib_args := { message := "from host!", number := (i : Int) }
    callThrough hello
      (Event.call_component_entry_point hello args (sizeof_lib_args env.pointer_size)) ()
  let custom : Ptr := 0
  let args : lib_args := { message := "from host!", number := -1 }
  let (rc, out) ← callThrough load_assembly_and_get_function_pointer
    (Event.resolve load_assembly_and_get_function_pointer dotnetlib_path dotnet_type
      "CustomEntryPointUnmanagedCallersOnly" DelegateTypeName.UNMANAGEDCALLERSONLY_METHOD)
    (env.resolve load_assembly_and_get_function_pointer dotnetlib_path dotnet_type
      "CustomEntryPointUnmanagedCallersOnly" DelegateTypeName.UNMANAGEDCALLERSONLY_METHOD)
  let custom := out.getD custom
  assert env (rc == 0 && custom != 0) "Failure: load_assembly_and_get_function_pointer()"
  callThrough custom (Event.call_custom_entry_point custom args) ()
  let (rc, out) ← callThrough load_assembly_and_get_function_pointer
    (Event.resolve load_assembly_and_get_function_pointer dotnetlib_path dotnet_type
      "CustomEntryPoint"
      (DelegateTypeName.name "DotNetLib.Lib+CustomEntryPointDelegate, DotNetLib"))
    (env.resolve load_assembly_and_get_function_pointer dotnetlib_path dotnet_type
      "CustomEntryPoint"
      (DelegateTypeName.name "DotNetLib.Lib+CustomEntryPointDelegate, DotNetLib"))
  let custom := out.getD custom
  assert env (rc == 0 && custom != 0) "Failure: load_assembly_and_get_function_pointer()"
  callThrough custom (Event.call_custom_entry_point custom args) ()
  let _rc ← pass_fnptr_to_dotnet env load_assembly_and_get_function_pointer
    dotnetlib_path dotnet_type
  let _rc ← pass_fnptr_to_dotnet_witharguments env load_assembly_and_get_function_pointer
    dotnetlib_path dotnet_type
  let _rc ← pass_fnptr_with_strings env load_assembly_and_get_function_pointer
    dotnetlib_path dotnet_type
  return EXIT_SUCCESS

/-- A run in which every step succeeds: hostfxr is at `/dotnet/libhostfxr.so`,
loaded at handle 16, its exports at 101..105; the runtime context is 7, the
resolution delegate 200, the managed entry points 301..306. -/
def goodEnv : Env where
  asserts := true
  pointer_size := 8
  get_hostfxr_path := fun _ => (0, "/dotnet/libhostfxr.so")
  dlopen := fun path => if path = "/dotnet/libhostfxr.so" then 16 else 0
  dlsym := fun h name =>
    if h = 16 then
      if name = "hostfxr_initialize_for_dotnet_command_line" then 101
      else if name = "hostfxr_initialize_for_runtime_config" then 102
      else if name = "hostfxr_get_runtime_delegate" then 103
      else if name = "hostfxr_run_app" then 104
      else if name = "hostfxr_close" then 105
      else 0
    else 0
  init_for_config := fun _ _ => (0, some 7)
  get_delegate := fun _ _ _ => (0, some 200)
  resolve := fun _ _ _ method _ =>
    if method = "Hello" then (0, some 301)
    else if method = "CustomEntryPointUnmanagedCallersOnly" then (0, some 302)
    else if method = "CustomEntryPoint" then (0, some 303)
    else if method = "TestFnPtr" then (0, some 304)
    else if method = "TestFnPtrWithArgs" then (0, some 305)
    else if method = "TestStringInputOutput" then (0, some 306)
    else (-2146233069, none)
  indeterminate := fun _ => 0

/-- The state at process start: globals zero-initialised, nothing done. -/
def initialState : State :=
  { exports := ⟨0, 0, 0, 0, 0⟩, trace := [] }

/-- Handle of the library `load_hostfxr` opens: the one at the path that
discovery wrote to the buffer. -/
def discoveredLib (env : Env) (assembly_path : Option String) : Ptr :=
  env.dlopen (env.get_hostfxr_path assembly_path).2

/-- Address the dynamic loader reports for `name` in that library. -/
def exportAddress (env : Env) (assembly_path : Option String) (name : String) : Ptr :=
  env.dlsym (discoveredLib env assembly_path) name

/-- The state after a successful `load_hostfxr` against `goodEnv`, with the
trace cleared. -/
def loadedState : State :=
  { exports := ⟨101, 102, 103, 104, 105⟩, trace := [] }

/-- As `goodEnv`, but discovery fails with `0x80008083` and leaves the buffer
empty. -/
def discoveryFailsEnv : Env :=
  { goodEnv with get_hostfxr_path := fun _ => (-2147450749, "") }

/-- As `goodEnv`, but the library does not export `hostfxr_run_app`. -/
def noRunAppEnv : Env :=
  { goodEnv with
    dlsym := fun h name => if name = "hostfxr_run_app" then 0 else goodEnv.dlsym h name }

/-- The same world, in a build with `NDEBUG`. -/
def ndebugEnv (env : Env) : Env := { env with asserts := false }

/-- As `goodEnv`, but initialize-by-config fails with `0x80008096` and stores
no context handle. -/
def initFailsEnv : Env :=
  { goodEnv with init_for_config := fun _ _ => (-2147450730, none) }

/-- As `goodEnv`, but initialize-by-config reports `0x80008093` although it
stored the context handle 7. -/
def initErrorWithHandleEnv : Env :=
  { goodEnv with init_for_config := fun _ _ => (-2147450733, some 7) }

/-- As `goodEnv`, but get-runtime-delegate fails with `0x80008083` and stores
nothing. -/
def delegateFailsEnv : Env :=
  { goodEnv with get_delegate := fun _ _ _ => (-2147450749, none) }

/-- The state `load_hostfxr` leaves behind in the all-good run. -/
def goodBootState : State :=
  { exports := ⟨101, 102, 103, 104, 105⟩,
    trace := [Event.get_hostfxr_path none,
              Event.load_library "/dotnet/libhostfxr.so",
              Event.get_export 16 "hostfxr_initialize_for_dotnet_command_line",
              Event.get_export 16 "hostfxr_initialize_for_runtime_config",
              Event.get_export 16 "hostfxr_get_runtime_delegate",
              Event.get_export 16 "hostfxr_run_app",
              Event.get_export 16 "hostfxr_close"] }

/-- The state `get_dotnet_load_assembly` leaves behind in the all-good run
started in `/app/`. -/
def goodDelegateState : State :=
  { exports := ⟨101, 102, 103, 104, 105⟩,
    trace := goodBootState.trace ++
      [Event.wprintf_config_path "/app/DotNetLib.runtimeconfig.json",
       Event.init_for_config 102 "/app/DotNetLib.runtimeconfig.json",
       Event.get_delegate 103 7
         hostfxr_delegate_type.hdt_load_assembly_and_get_function_pointer,
       Event.close 105 7] }

/-- As `goodEnv`, but resolving `TestFnPtr` reports `0x80131513` while a
non-null pointer is in the output slot. -/
def testFnPtrErrorEnv : Env :=
  { goodEnv with
    resolve := fun fn assembly type method kind =>
      if method = "TestFnPtr" then (-2146233069, some 304)
      else goodEnv.resolve fn assembly type method kind }

/-- As `goodEnv`, but resolving `CustomEntryPoint` reports `0x80131513` while a
non-null pointer is in the output slot. -/
def customEntryPointErrorEnv : Env :=
  { goodEnv with
    resolve := fun fn assembly type method kind =>
      if method = "CustomEntryPoint" then (-2146233069, some 303)
      else goodEnv.resolve fn assembly type method kind }

/-- As `goodEnv`, but resolving `TestStringInputOutput` reports `0x80131513`
while a non-null pointer is in the output slot. -/
def stringsErrorEnv : Env :=
  { goodEnv with
    resolve := fun fn assembly type method kind =>
      if method = "TestStringInputOutput" then (-2146233069, some 306)
      else goodEnv.resolve fn assembly type method kind }

/-- What the all-good run started in `/app/` does after the delegate has been
acquired: six resolutions, each followed by the calls of the resolved pointer. -/
def goodManagedTrace : List Event :=
  [Event.resolve 200 "/app/DotNetLib.dll" "DotNetLib.Lib, DotNetLib" "Hello"
     DelegateTypeName.null,
   Event.call_component_entry_point 301 ⟨"from host!", 0⟩ 16,
   Event.call_component_entry_point 301 ⟨"from host!", 1⟩ 16,
   Event.call_component_entry_point 301 ⟨"from host!", 2⟩ 16,
   Event.resolve 200 "/app/DotNetLib.dll" "DotNetLib.Lib, DotNetLib"
     "CustomEntryPointUnmanagedCallersOnly" DelegateTypeName.UNMANAGEDCALLERSONLY_METHOD,
   Event.call_custom_entry_point 302 ⟨"from host!", -1⟩,
   Event.resolve 200 "/app/DotNetLib.dll" "DotNetLib.Lib, DotNetLib" "CustomEntryPoint"
     (DelegateTypeName.name "DotNetLib.Lib+CustomEntryPointDelegate, DotNetLib"),
   Event.call_custom_entry_point 303 ⟨"from host!", -1⟩,
   Event.resolve 200 "/app/DotNetLib.dll" "DotNetLib.Lib, DotNetLib" "TestFnPtr"
     DelegateTypeName.UNMANAGEDCALLERSONLY_METHOD,
   Event.call_send_callback 304 NativeCallback.test_fn,
   Event.resolve 200 "/app/DotNetLib.dll" "DotNetLib.Lib, DotNetLib" "TestFnPtrWithArgs"
     DelegateTypeName.UNMANAGEDCALLERSONLY_METHOD,
   Event.call_send_callback 305 NativeCallback.lambda_int_to_double,
   Event.resolve 200 "/app/DotNetLib.dll" "DotNetLib.Lib, DotNetLib" "TestStringInputOutput"
     DelegateTypeName.UNMANAGEDCALLERSONLY_METHOD,
   Event.call_send_callback 306 NativeCallback.lambda_string_to_string]

/-- Actions that go through the resolution delegate or a resolved pointer. -/
def Event.isManaged : Event → Bool
  | .resolve _ _ _ _ _ => true
  | .call_component_entry_point _ _ _ => true
  | .call_custom_entry_point _ _ => true
  | .call_send_callback _ _ => true
  | _ => false

/-- Actions that invoke a pointer resolved under the default signature. -/
def Event.isDefaultShapeCall : Event → Bool
  | .call_component_entry_point _ _ _ => true
  | _ => false

/-- Every run of `m`, however it ends, only appends to the trace, and only
actions satisfying `P`. -/
def Appends {α : Type} (P : Event → Prop) (m : M α) : Prop :=
  ∀ s, ∃ evs, (m s).state.trace = s.trace ++ evs ∧ ∀ e ∈ evs, P e

/-! ## Symbolic execution lemmas -/

@[simp] theorem pure_run {α : Type} (a : α) (s : State) :
    (pure a : M α) s = .ok a s := rfl

@[simp] theorem bind_run {α β : Type} (m : M α) (f : α → M β) (s : State) :
    (m >>= f) s = match m s with
      | .ok a s1 => f a s1
      | .abort msg s1 => .abort msg s1
      | .undef s1 => .undef s1 := rfl

@[simp] theorem emit_run (e : Event) (s : State) :
    emit e s = .ok () { s with trace := s.trace ++ [e] } := rfl

@[simp] theorem getExports_run (s : State) : getExports s = .ok s.exports s := rfl

@[simp] theorem setExports_run (f : Exports → Exports) (s : State) :
    setExports f s = .ok () { s with exports := f s.exports } := rfl

theorem assert_run (env : Env) (c : Bool) (msg : String) (s : State) :
    assert env c msg s = if env.asserts && !c then .abort msg s else .ok () s := rfl

@[simp] theorem assert_true_run (env : Env) (msg : String) (s : State) :
    assert env true msg s = .ok () s := by
  simp [assert]

theorem callThrough_run {α : Type} (fn : Ptr) (e : Event) (r : α) (s : State) (h : fn ≠ 0) :
    callThrough fn e r s = .ok r { s with trace := s.trace ++ [e] } := by
  simp [callThrough, h]

theorem Appends.pure {α : Type} {P : Event → Prop} (a : α) : Appends P (pure a : M α) :=
  fun s => ⟨[], by simp [Result.state], by simp⟩

theorem Appends.bind {α β : Type} {P : Event → Prop} {m : M α} {f : α → M β}
    (hm : Appends P m) (hf : ∀ a, Appends P (f a)) : Appends P (m >>= f) := by
  intro s
  obtain ⟨evs, h1, h2⟩ := hm s
  rw [bind_run]
  cases hms : m s with
  | ok a s1 =>
    obtain ⟨evs', h3, h4⟩ := hf a s1
    rw [hms] at h1
    simp only [Result.state] at h1
    refine ⟨evs ++ evs', ?_, ?_⟩
    · simp only [h3, h1, List.append_assoc]
    · intro e he
      rcases List.mem_append.1 he with h | h
      · exact h2 e h
      · exact h4 e h
  | abort msg s1 =>
    rw [hms] at h1
    exact ⟨evs, h1, h2⟩
  | undef s1 =>
    rw [hms] at h1
    exact ⟨evs, h1, h2⟩

theorem Appends.emit {P : Event → Prop} {e : Event} (h : P e) : Appends P (emit e) :=
  fun s => ⟨[e], by simp [Result.state], by simpa using h⟩

theorem Appends.assert {P : Event → Prop} (env : Env) (c : Bool) (msg : String) :
    Appends P (assert env c msg) := by
  intro s
  refine ⟨[], ?_, by simp⟩
  rw [assert_run]
  split <;> simp [Result.state]

theorem Appends.callThrough {α : Type} {P : Event → Prop} {fn : Ptr} {e : Event} {r : α}
    (h : P e) : Appends P (callThrough fn e r) := by
  intro s
  by_cases hfn : fn = 0
  · exact ⟨[], by simp [NativeHost.callThrough, hfn, Result.state], by simp⟩
  · exact ⟨[e], by simp [NativeHost.callThrough, hfn, Result.state], by simpa using h⟩

theorem Appends.getExports {P : Event → Prop} : Appends P getExports :=
  fun s => ⟨[], by simp [Result.state], by simp⟩

theorem Appends.setExports {P : Event → Prop} (f : Exports → Exports) :
    Appends P (setExports f) :=
  fun s => ⟨[], by simp [Result.state], by simp⟩

theorem Appends.ite {α : Type} {P : Event → Prop} {c : Prop} [Decidable c] {m1 m2 : M α}
    (h1 : Appends P m1) (h2 : Appends P m2) : Appends P (if c then m1 else m2) := by
  split
  · exact h1
  · exact h2

theorem get_export_appends {P : Event → Prop} (env : Env) (h : Ptr) (name : String)
    (hP : P (Event.get_export h name)) : Appends P (get_export env h name) := by
  unfold get_export
  repeat' (first
    | apply Appends.bind
    | apply Appends.pure
    | apply Appends.emit
    | apply Appends.assert
    | intro _)
  exact hP

theorem load_hostfxr_appends {P : Event → Prop} (env : Env) (a : Option String)
    (h1 : P (Event.get_hostfxr_path a)) (h2 : ∀ path, P (Event.load_library path))
    (h3 : ∀ h name, P (Event.get_export h name)) : Appends P (load_hostfxr env a) := by
  unfold load_hostfxr load_library
  repeat' (first
    | with_reducible apply Appends.bind
    | with_reducible apply Appends.pure
    | with_reducible apply Appends.emit
    | with_reducible apply Appends.assert
    | with_reducible apply Appends.getExports
    | with_reducible apply Appends.setExports
    | with_reducible apply Appends.ite
    | with_reducible apply get_export_appends
    | intro _
    | split)
  all_goals first | exact h1 | exact h2 _ | exact h3 _ _

theorem bind_ok {α β : Type} {m : M α} {f : α → M β} {s s1 : State} {a : α}
    (h : m s = .ok a s1) : (m >>= f) s = f a s1 := by
  rw [bind_run, h]

theorem filter_of_appends {α : Type} {p : Event → Bool} {m : M α}
    (h : Appends (fun e => p e = false) m) (s : State) :
    (m s).state.trace.filter p = s.trace.filter p := by
  obtain ⟨evs, h1, h2⟩ := h s
  rw [h1, List.filter_append]
  have : evs.filter p = [] := by
    rw [List.filter_eq_nil_iff]
    intro e he
    simp [h2 e he]
  rw [this, List.append_nil]

theorem get_dotnet_load_assembly_appends {P : Event → Prop} (env : Env) (cfg : String)
    (h1 : ∀ fn c, P (Event.init_for_config fn c))
    (h2 : ∀ fn c k, P (Event.get_delegate fn c k))
    (h3 : ∀ fn c, P (Event.close fn c))
    (h4 : ∀ rc, P (Event.cerr_init_failed rc))
    (h5 : ∀ rc, P (Event.cerr_get_delegate_failed rc)) :
    Appends P (get_dotnet_load_assembly env cfg) := by
  unfold get_dotnet_load_assembly
  repeat' (first
    | with_reducible apply Appends.bind
    | with_reducible apply Appends.pure
    | with_reducible apply Appends.emit
    | with_reducible apply Appends.callThrough
    | with_reducible apply Appends.getExports
    | with_reducible apply Appends.ite
    | intro _
    | split)
  all_goals first | exact h1 _ _ | exact h2 _ _ _ | exact h3 _ _ | exact h4 _ | exact h5 _

theorem hello_loop_run (env : Env) (hello : Ptr) (s : State) (hh : hello ≠ 0) :
    ((List.range 3).forM fun i =>
        callThrough hello
          (Event.call_component_entry_point hello
            { message := "from host!", number := (i : Int) }
            (sizeof_lib_args env.pointer_size))
          ()) s =
      .ok ()
        { s with trace := s.trace ++
            [Event.call_component_entry_point hello ⟨"from host!", 0⟩
               (sizeof_lib_args env.pointer_size),
             Event.call_component_entry_point hello ⟨"from host!", 1⟩
               (sizeof_lib_args env.pointer_size),
             Event.call_component_entry_point hello ⟨"from host!", 2⟩
               (sizeof_lib_args env.pointer_size)] } := by
  have hr : List.range 3 = [0, 1, 2] := by decide
  rw [hr]
  simp [List.forM, callThrough, hh]

/-- C1: when discovery reports a non-zero result, `load_hostfxr` returns
false, the globals are untouched, and the only action performed is the
discovery call itself (no `load_library`, no `get_export`). -/
theorem load_hostfxr_discovery_failure (env : Env) (assembly_path : Option String)
    (s : State) (h : (env.get_hostfxr_path assembly_path).1 ≠ 0) :
    load_hostfxr env assembly_path s =
      .ok false { exports := s.exports,
                  trace := s.trace ++ [Event.get_hostfxr_path assembly_path] } := by
  simp [load_hostfxr, h]


/-- Witness for C1: discovery fails with `0x80008083` while the globals hold
addresses from an earlier load; they are still there afterwards. -/
theorem load_hostfxr_discovery_failure_witness :
    load_hostfxr discoveryFailsEnv (some "/app/DotNetLib.dll") loadedState =
      .ok false
        { exports := ⟨101, 102, 103, 104, 105⟩,
          trace := [Event.get_hostfxr_path (some "/app/DotNetLib.dll")] } :=
  load_hostfxr_discovery_failure discoveryFailsEnv (some "/app/DotNetLib.dll") loadedState
    (by decide)

/-- C2, as stated, fails: with assertions active, a library that has the three
mandatory exports but lacks `hostfxr_run_app` makes `load_hostfxr` abort
inside `get_export` instead of returning true. -/
theorem load_hostfxr_optional_absent_aborts :
    (noRunAppEnv.get_hostfxr_path none).1 = 0 ∧
    noRunAppEnv.dlopen (noRunAppEnv.get_hostfxr_path none).2 = 16 ∧
    noRunAppEnv.dlsym 16 "hostfxr_initialize_for_runtime_config" ≠ 0 ∧
    noRunAppEnv.dlsym 16 "hostfxr_get_runtime_delegate" ≠ 0 ∧
    noRunAppEnv.dlsym 16 "hostfxr_close" ≠ 0 ∧
    noRunAppEnv.dlsym 16 "hostfxr_run_app" = 0 ∧
    load_hostfxr noRunAppEnv none initialState =
      .abort "f != nullptr"
        { exports := ⟨101, 102, 103, 0, 0⟩,
          trace := [Event.get_hostfxr_path none,
                    Event.load_library "/dotnet/libhostfxr.so",
                    Event.get_export 16 "hostfxr_initialize_for_dotnet_command_line",
                    Event.get_export 16 "hostfxr_initialize_for_runtime_config",
                    Event.get_export 16 "hostfxr_get_runtime_delegate",
                    Event.get_export 16 "hostfxr_run_app"] } := by
  decide

/-- C2, amended: for a library that discovery locates, that loads, and that
has the three mandatory exports, `load_hostfxr` returns true with the five
globals set to the looked-up addresses (an absent optional export leaving its
global null) when assertions are compiled out or both optional exports are
present; with assertions active and an optional export absent it aborts in
`get_export`. -/
theorem load_hostfxr_mandatory_exports (env : Env) (assembly_path : Option String)
    (s : State)
    (hrc : (env.get_hostfxr_path assembly_path).1 = 0)
    (hlib : discoveredLib env assembly_path ≠ 0)
    (hcfg : exportAddress env assembly_path "hostfxr_initialize_for_runtime_config" ≠ 0)
    (hdel : exportAddress env assembly_path "hostfxr_get_runtime_delegate" ≠ 0)
    (hclose : exportAddress env assembly_path "hostfxr_close" ≠ 0) :
    (env.asserts = false ∨
      (exportAddress env assembly_path "hostfxr_initialize_for_dotnet_command_line" ≠ 0 ∧
        exportAddress env assembly_path "hostfxr_run_app" ≠ 0) →
      load_hostfxr env assembly_path s =
        .ok true
          { exports :=
              { init_for_cmd_line_fptr :=
                  exportAddress env assembly_path "hostfxr_initialize_for_dotnet_command_line"
                init_for_config_fptr :=
                  exportAddress env assembly_path "hostfxr_initialize_for_runtime_config"
                get_delegate_fptr :=
                  exportAddress env assembly_path "hostfxr_get_runtime_delegate"
                run_app_fptr := exportAddress env assembly_path "hostfxr_run_app"
                close_fptr := exportAddress env assembly_path "hostfxr_close" }
            trace := s.trace ++
              [Event.get_hostfxr_path assembly_path,
               Event.load_library (env.get_hostfxr_path assembly_path).2,
               Event.get_export (discoveredLib env assembly_path)
                 "hostfxr_initialize_for_dotnet_command_line",
               Event.get_export (discoveredLib env assembly_path)
                 "hostfxr_initialize_for_runtime_config",
               Event.get_export (discoveredLib env assembly_path)
                 "hostfxr_get_runtime_delegate",
               Event.get_export (discoveredLib env assembly_path) "hostfxr_run_app",
               Event.get_export (discoveredLib env assembly_path) "hostfxr_close"] }) ∧
    (env.asserts = true ∧
      (exportAddress env assembly_path "hostfxr_initialize_for_dotnet_command_line" = 0 ∨
        exportAddress env assembly_path "hostfxr_run_app" = 0) →
      ∃ s', load_hostfxr env assembly_path s = .abort "f != nullptr" s') := by
  simp only [exportAddress, discoveredLib] at *
  constructor
  · rintro (ha | ⟨hcmd, hrun⟩)
    · simp [load_hostfxr, load_library, get_export, assert, hrc, ha, hcfg, hdel, hclose]
    · simp [load_hostfxr, load_library, get_export, assert, hrc, hlib, hcfg, hdel, hclose,
        hcmd, hrun]
  · rintro ⟨ha, hcmd | hrun⟩
    · simp [load_hostfxr, load_library, get_export, assert, hrc, hlib, ha, hcmd]
    · by_cases hcmd : env.dlsym (env.dlopen (env.get_hostfxr_path assembly_path).2)
          "hostfxr_initialize_for_dotnet_command_line" = 0
      · simp [load_hostfxr, load_library, get_export, assert, hrc, hlib, ha, hcmd]
      · simp [load_hostfxr, load_library, get_export, assert, hrc, hlib, ha, hcmd, hcfg,
          hdel, hrun]

/-- Witness for C2, amended: the library without `hostfxr_run_app`, in a build
with `NDEBUG`, loads with `run_app_fptr` left null. -/
theorem load_hostfxr_mandatory_exports_witness :
    load_hostfxr (ndebugEnv noRunAppEnv) none initialState =
      .ok true
        { exports := ⟨101, 102, 103, 0, 105⟩,
          trace := [Event.get_hostfxr_path none,
                    Event.load_library "/dotnet/libhostfxr.so",
                    Event.get_export 16 "hostfxr_initialize_for_dotnet_command_line",
                    Event.get_export 16 "hostfxr_initialize_for_runtime_config",
                    Event.get_export 16 "hostfxr_get_runtime_delegate",
                    Event.get_export 16 "hostfxr_run_app",
                    Event.get_export 16 "hostfxr_close"] } :=
  (load_hostfxr_mandatory_exports (ndebugEnv noRunAppEnv) none initialState
    (by decide) (by decide) (by decide) (by decide) (by decide)).1 (Or.inl rfl)

/-- C3: whenever initialize-by-config stores a non-null context handle,
`get_dotnet_load_assembly` returns, and what it did ends with one call of the
close export on that handle, no other close call coming before it. -/
theorem get_dotnet_load_assembly_closes_once (env : Env) (config_path : String)
    (s : State) (c : Ptr)
    (hinit : s.exports.init_for_config_fptr ≠ 0)
    (hdel : s.exports.get_delegate_fptr ≠ 0)
    (hclose : s.exports.close_fptr ≠ 0)
    (hc : (env.init_for_config s.exports.init_for_config_fptr config_path).2 = some c)
    (hc0 : c ≠ 0) :
    ∃ d evs,
      get_dotnet_load_assembly env config_path s =
        .ok d { exports := s.exports,
                trace := s.trace ++ evs ++ [Event.close s.exports.close_fptr c] } ∧
      ∀ e ∈ evs, ∀ fn h, e ≠ Event.close fn h := by
  by_cases hrc : (env.init_for_config s.exports.init_for_config_fptr config_path).1 = 0
  · rcases hgd : env.get_delegate s.exports.get_delegate_fptr c
        hostfxr_delegate_type.hdt_load_assembly_and_get_function_pointer with ⟨rc2, out2⟩
    by_cases hlog : rc2 = 0 ∧ out2.getD 0 ≠ 0
    · refine ⟨out2.getD 0,
        [Event.init_for_config s.exports.init_for_config_fptr config_path,
         Event.get_delegate s.exports.get_delegate_fptr c
          hostfxr_delegate_type.hdt_load_assembly_and_get_function_pointer], ?_, ?_⟩
      · simp [get_dotnet_load_assembly, callThrough, hinit, hdel, hclose, hc, hc0, hrc,
          hgd, hlog.1, hlog.2]
      · simp
    · refine ⟨out2.getD 0,
        [Event.init_for_config s.exports.init_for_config_fptr config_path,
         Event.get_delegate s.exports.get_delegate_fptr c
          hostfxr_delegate_type.hdt_load_assembly_and_get_function_pointer,
         Event.cerr_get_delegate_failed rc2], ?_, ?_⟩
      · have hcond : ¬rc2 = 0 ∨ out2.getD 0 = 0 := by
          by_cases h0 : rc2 = 0
          · exact Or.inr (Classical.byContradiction fun h1 => hlog ⟨h0, h1⟩)
          · exact Or.inl h0
        simp [get_dotnet_load_assembly, callThrough, hinit, hdel, hclose, hc, hc0, hrc,
          hgd, hcond]
      · simp
  · refine ⟨0, [Event.init_for_config s.exports.init_for_config_fptr config_path,
      Event.cerr_init_failed
        (env.init_for_config s.exports.init_for_config_fptr config_path).1], ?_, ?_⟩
    · simp [get_dotnet_load_assembly, callThrough, hinit, hclose, hc, hrc]
    · simp

/-- Witness for C3, on the all-good run: the handle 7 is closed once, last. -/
theorem get_dotnet_load_assembly_closes_once_witness :
    ∃ d evs,
      get_dotnet_load_assembly goodEnv "/app/DotNetLib.runtimeconfig.json" loadedState =
        .ok d { exports := loadedState.exports,
                trace := loadedState.trace ++ evs ++ [Event.close 105 7] } ∧
      ∀ e ∈ evs, ∀ fn h, e ≠ Event.close fn h :=
  get_dotnet_load_assembly_closes_once goodEnv "/app/DotNetLib.runtimeconfig.json"
    loadedState 7 (by decide) (by decide) (by decide) rfl (by decide)

/-- C4: when initialize-by-config returns a non-zero code or leaves the handle
null, `get_dotnet_load_assembly` returns the null delegate and none of its
actions is a get-runtime-delegate call. -/
theorem get_dotnet_load_assembly_init_failure (env : Env) (config_path : String)
    (s : State)
    (hinit : s.exports.init_for_config_fptr ≠ 0)
    (hclose : s.exports.close_fptr ≠ 0)
    (hfail : (env.init_for_config s.exports.init_for_config_fptr config_path).1 ≠ 0 ∨
      (env.init_for_config s.exports.init_for_config_fptr config_path).2.getD 0 = 0) :
    ∃ evs,
      get_dotnet_load_assembly env config_path s =
        .ok 0 { exports := s.exports, trace := s.trace ++ evs } ∧
      ∀ e ∈ evs, ∀ fn c kind, e ≠ Event.get_delegate fn c kind := by
  refine ⟨[Event.init_for_config s.exports.init_for_config_fptr config_path,
    Event.cerr_init_failed
      (env.init_for_config s.exports.init_for_config_fptr config_path).1,
    Event.close s.exports.close_fptr
      ((env.init_for_config s.exports.init_for_config_fptr config_path).2.getD 0)], ?_, ?_⟩
  · have hcond :
        ¬(env.init_for_config s.exports.init_for_config_fptr config_path).1 = 0 ∨
        (env.init_for_config s.exports.init_for_config_fptr config_path).2.getD 0 = 0 :=
      hfail
    simp [get_dotnet_load_assembly, callThrough, hinit, hclose, hcond]
  · simp

/-- Witness for C4: a non-zero code together with a stored handle. -/
theorem get_dotnet_load_assembly_init_failure_witness :
    ∃ evs,
      get_dotnet_load_assembly initErrorWithHandleEnv "/app/DotNetLib.runtimeconfig.json"
          loadedState =
        .ok 0 { exports := loadedState.exports, trace := loadedState.trace ++ evs } ∧
      ∀ e ∈ evs, ∀ fn c kind, e ≠ Event.get_delegate fn c kind :=
  get_dotnet_load_assembly_init_failure initErrorWithHandleEnv
    "/app/DotNetLib.runtimeconfig.json" loadedState (by decide) (by decide)
    (Or.inl (by decide))

/-- C5, as stated, fails: when initialize-by-config fails and stores no
handle, the close export is still called, with the null handle. -/
theorem get_dotnet_load_assembly_closes_null_handle :
    initFailsEnv.init_for_config 102 "/app/DotNetLib.runtimeconfig.json" =
      (-2147450730, none) ∧
    get_dotnet_load_assembly initFailsEnv "/app/DotNetLib.runtimeconfig.json" loadedState =
      .ok 0
        { exports := ⟨101, 102, 103, 104, 105⟩,
          trace := [Event.init_for_config 102 "/app/DotNetLib.runtimeconfig.json",
                    Event.cerr_init_failed (-2147450730),
                    Event.close 105 0] } := by
  decide

/-- C5, amended: on the initialization-failure path the close export is called
exactly once and unconditionally, on whatever the context handle holds: the
stored handle when there is one, the null handle otherwise. It is the last
action, after the call of initialize-by-config and the log line. -/
theorem get_dotnet_load_assembly_failure_closes_unconditionally (env : Env)
    (config_path : String) (s : State)
    (hinit : s.exports.init_for_config_fptr ≠ 0)
    (hclose : s.exports.close_fptr ≠ 0)
    (hfail : (env.init_for_config s.exports.init_for_config_fptr config_path).1 ≠ 0 ∨
      (env.init_for_config s.exports.init_for_config_fptr config_path).2.getD 0 = 0) :
    get_dotnet_load_assembly env config_path s =
      .ok 0
        { exports := s.exports,
          trace := s.trace ++
            [Event.init_for_config s.exports.init_for_config_fptr config_path,
             Event.cerr_init_failed
               (env.init_for_config s.exports.init_for_config_fptr config_path).1,
             Event.close s.exports.close_fptr
               ((env.init_for_config s.exports.init_for_config_fptr
                 config_path).2.getD 0)] } := by
  have hcond :
      ¬(env.init_for_config s.exports.init_for_config_fptr config_path).1 = 0 ∨
      (env.init_for_config s.exports.init_for_config_fptr config_path).2.getD 0 = 0 :=
    hfail
  simp [get_dotnet_load_assembly, callThrough, hinit, hclose, hcond]

/-- Witness for C5, amended: initialize-by-config reports success but stores
no handle. -/
theorem get_dotnet_load_assembly_failure_closes_unconditionally_witness :
    get_dotnet_load_assembly
        { goodEnv with init_for_config := fun _ _ => (0, none) }
        "/app/DotNetLib.runtimeconfig.json" loadedState =
      .ok 0
        { exports := ⟨101, 102, 103, 104, 105⟩,
          trace := [Event.init_for_config 102 "/app/DotNetLib.runtimeconfig.json",
                    Event.cerr_init_failed 0,
                    Event.close 105 0] } :=
  get_dotnet_load_assembly_failure_closes_unconditionally
    { goodEnv with init_for_config := fun _ _ => (0, none) }
    "/app/DotNetLib.runtimeconfig.json" loadedState (by decide) (by decide)
    (Or.inr (by decide))

/-- C6: when initialize-by-config succeeds, `get_dotnet_load_assembly` calls
get-runtime-delegate on the new handle for the kind
`hdt_load_assembly_and_get_function_pointer`, closes the handle, and returns
exactly what get-runtime-delegate stored (null if nothing); a non-zero code or
a null delegate adds one log line and changes nothing else. -/
theorem get_dotnet_load_assembly_returns_stored_delegate (env : Env)
    (config_path : String) (s : State) (c : Ptr) (rc : Int) (out : Option Ptr)
    (hinit : s.exports.init_for_config_fptr ≠ 0)
    (hdel : s.exports.get_delegate_fptr ≠ 0)
    (hclose : s.exports.close_fptr ≠ 0)
    (hok : env.init_for_config s.exports.init_for_config_fptr config_path = (0, some c))
    (hc0 : c ≠ 0)
    (hgd : env.get_delegate s.exports.get_delegate_fptr c
      hostfxr_delegate_type.hdt_load_assembly_and_get_function_pointer = (rc, out)) :
    get_dotnet_load_assembly env config_path s =
      .ok (out.getD 0)
        { exports := s.exports,
          trace := s.trace ++
            [Event.init_for_config s.exports.init_for_config_fptr config_path,
             Event.get_delegate s.exports.get_delegate_fptr c
               hostfxr_delegate_type.hdt_load_assembly_and_get_function_pointer] ++
            (if rc ≠ 0 ∨ out.getD 0 = 0 then [Event.cerr_get_delegate_failed rc] else []) ++
            [Event.close s.exports.close_fptr c] } := by
  by_cases hcond : ¬rc = 0 ∨ out.getD 0 = 0
  · simp [get_dotnet_load_assembly, callThrough, hinit, hdel, hclose, hok, hc0, hgd, hcond]
  · have h1 : rc = 0 := Classical.byContradiction fun h => hcond (Or.inl h)
    have h2 : ¬out.getD 0 = 0 := fun h => hcond (Or.inr h)
    simp [get_dotnet_load_assembly, callThrough, hinit, hdel, hclose, hok, hc0, hgd, h1, h2]

/-- Witness for C6: get-runtime-delegate fails and stores nothing; the null
delegate is returned after the handle is closed. -/
theorem get_dotnet_load_assembly_returns_stored_delegate_witness :
    get_dotnet_load_assembly delegateFailsEnv "/app/DotNetLib.runtimeconfig.json"
        loadedState =
      .ok 0
        { exports := ⟨101, 102, 103, 104, 105⟩,
          trace := [Event.init_for_config 102 "/app/DotNetLib.runtimeconfig.json",
                    Event.get_delegate 103 7
                      hostfxr_delegate_type.hdt_load_assembly_and_get_function_pointer,
                    Event.cerr_get_delegate_failed (-2147450749),
                    Event.close 105 7] } :=
  get_dotnet_load_assembly_returns_stored_delegate delegateFailsEnv
    "/app/DotNetLib.runtimeconfig.json" loadedState 7 (-2147450749) none
    (by decide) (by decide) (by decide) rfl (by decide) rfl

/-- C7, evaluated at a failing input. With assertions active, resolving
`TestFnPtr` returns the non-zero code `0x80131513` with a non-null pointer in
the slot: nothing aborts, the pointer is called, the two later resolutions
and calls follow, and the run ends like the all-good one. The same outcome
for `CustomEntryPoint`, asserted inline, aborts right after that resolution,
the seventh action of the managed phase. -/
theorem run_component_example_helper_ignores_result_code :
    testFnPtrErrorEnv.asserts = true ∧
    testFnPtrErrorEnv.resolve 200 "/app/DotNetLib.dll" "DotNetLib.Lib, DotNetLib" "TestFnPtr"
      DelegateTypeName.UNMANAGEDCALLERSONLY_METHOD = (-2146233069, some 304) ∧
    run_component_example testFnPtrErrorEnv "/app/" initialState =
      .ok EXIT_SUCCESS
        { exports := ⟨101, 102, 103, 104, 105⟩,
          trace := goodDelegateState.trace ++ goodManagedTrace } ∧
    run_component_example customEntryPointErrorEnv "/app/" initialState =
      .abort "Failure: load_assembly_and_get_function_pointer()"
        { exports := ⟨101, 102, 103, 104, 105⟩,
          trace := goodDelegateState.trace ++ goodManagedTrace.take 7 } := by
  have hr : List.range 3 = [0, 1, 2] := by decide
  simp [run_component_example, load_hostfxr, load_library, get_export,
    get_dotnet_load_assembly, pass_fnptr_to_dotnet, pass_fnptr_to_dotnet_witharguments,
    pass_fnptr_with_strings, assert, callThrough, testFnPtrErrorEnv, customEntryPointErrorEnv,
    goodEnv, initialState, goodDelegateState, goodBootState, goodManagedTrace, List.forM, hr,
    EXIT_SUCCESS, sizeof_lib_args]

/-- C8, evaluated at a failing input. With assertions active, resolving
`TestStringInputOutput` returns the non-zero code `0x80131513` with a non-null
pointer in the slot, and `run_component_example` still returns
`EXIT_SUCCESS`, which is 0. -/
theorem run_component_example_success_status_despite_error :
    stringsErrorEnv.asserts = true ∧
    (stringsErrorEnv.resolve 200 "/app/DotNetLib.dll" "DotNetLib.Lib, DotNetLib"
      "TestStringInputOutput" DelegateTypeName.UNMANAGEDCALLERSONLY_METHOD).1 ≠ 0 ∧
    run_component_example stringsErrorEnv "/app/" initialState =
      .ok 0
        { exports := ⟨101, 102, 103, 104, 105⟩,
          trace := goodDelegateState.trace ++ goodManagedTrace } := by
  have hr : List.range 3 = [0, 1, 2] := by decide
  simp [run_component_example, load_hostfxr, load_library, get_export,
    get_dotnet_load_assembly, pass_fnptr_to_dotnet, pass_fnptr_to_dotnet_witharguments,
    pass_fnptr_with_strings, assert, callThrough, stringsErrorEnv,
    goodEnv, initialState, goodDelegateState, goodBootState, goodManagedTrace, List.forM, hr,
    EXIT_SUCCESS, sizeof_lib_args]
/-- C9: when bootstrap, delegate acquisition and the resolution of `Hello`
succeed, the calls of a default-shape entry point made by
`run_component_example`, however the run ends, are exactly three calls of the
resolved pointer, in this order: message "from host!" with number 0, then 1,
then 2, each with the size of `lib_args`. -/
theorem run_component_example_hello_three_times (env : Env) (root_path : String)
    (s s1 s2 : State) (d hello : Ptr)
    (hboot : load_hostfxr env none s = .ok true s1)
    (hdeleg : get_dotnet_load_assembly env (root_path ++ "DotNetLib.runtimeconfig.json")
      { s1 with trace := s1.trace ++
          [Event.wprintf_config_path (root_path ++ "DotNetLib.runtimeconfig.json")] } =
      .ok d s2)
    (hd : d ≠ 0)
    (hres : env.resolve d (root_path ++ "DotNetLib.dll") "DotNetLib.Lib, DotNetLib" "Hello"
      DelegateTypeName.null = (0, some hello))
    (hh : hello ≠ 0) :
    (run_component_example env root_path s).state.trace.filter Event.isDefaultShapeCall =
      s.trace.filter Event.isDefaultShapeCall ++
        [Event.call_component_entry_point hello ⟨"from host!", 0⟩
           (sizeof_lib_args env.pointer_size),
         Event.call_component_entry_point hello ⟨"from host!", 1⟩
           (sizeof_lib_args env.pointer_size),
         Event.call_component_entry_point hello ⟨"from host!", 2⟩
           (sizeof_lib_args env.pointer_size)] := by
  have hs1 : s1.trace.filter Event.isDefaultShapeCall =
      s.trace.filter Event.isDefaultShapeCall := by
    have := filter_of_appends (p := Event.isDefaultShapeCall)
      (load_hostfxr_appends env none rfl (fun _ => rfl) (fun _ _ => rfl)) s
    rwa [hboot] at this
  have hs2 : s2.trace.filter Event.isDefaultShapeCall =
      s.trace.filter Event.isDefaultShapeCall := by
    have := filter_of_appends (p := Event.isDefaultShapeCall)
      (get_dotnet_load_assembly_appends env (root_path ++ "DotNetLib.runtimeconfig.json")
        (fun _ _ => rfl) (fun _ _ _ => rfl) (fun _ _ => rfl) (fun _ => rfl) (fun _ => rfl))
      { s1 with trace := s1.trace ++
          [Event.wprintf_config_path (root_path ++ "DotNetLib.runtimeconfig.json")] }
    rw [hdeleg] at this
    simpa [Result.state, List.filter_append, Event.isDefaultShapeCall, hs1] using this
  unfold run_component_example
  rw [bind_ok hboot]
  simp only [Bool.not_true, Bool.false_eq_true, if_false]
  rw [bind_ok (pure_run _ _)]
  rw [bind_ok (emit_run _ _), bind_ok hdeleg]
  have hassert1 : ∀ msg st, assert env (d != 0) msg st = .ok () st := by
    intro msg st
    simp [assert, hd]
  have hassert2 : ∀ msg st,
      assert env ((0 : Int) == 0 && hello != 0) msg st = .ok () st := by
    intro msg st
    simp [assert, hh]
  rw [bind_ok (hassert1 _ _), bind_ok (callThrough_run _ _ _ _ hd)]
  simp only [hres, Option.getD_some]
  rw [bind_ok (hassert2 _ _), bind_ok (hello_loop_run env hello _ hh)]
  refine (filter_of_appends ?_ _).trans ?_
  · unfold pass_fnptr_to_dotnet pass_fnptr_to_dotnet_witharguments pass_fnptr_with_strings
    repeat' (first
      | with_reducible apply Appends.bind
      | with_reducible apply Appends.pure
      | with_reducible apply Appends.assert
      | with_reducible apply Appends.callThrough
      | intro _
      | split)
    all_goals rfl
  · simp [List.filter_append, hs2, Event.isDefaultShapeCall]

/-- Witness for C9, on the all-good run. -/
theorem run_component_example_hello_three_times_witness :
    (run_component_example goodEnv "/app/" initialState).state.trace.filter
        Event.isDefaultShapeCall =
      [Event.call_component_entry_point 301 ⟨"from host!", 0⟩ 16,
       Event.call_component_entry_point 301 ⟨"from host!", 1⟩ 16,
       Event.call_component_entry_point 301 ⟨"from host!", 2⟩ 16] :=
  run_component_example_hello_three_times goodEnv "/app/" initialState goodBootState
    goodDelegateState 200 301 (by decide) (by decide) (by decide) (by decide) (by decide)

/-- C10: on a run where bootstrap, delegate acquisition and all six
resolutions succeed, `run_component_example` returns `EXIT_SUCCESS` and what
it does with managed code is exactly: resolve `Hello` (null discriminator) and
call it three times; resolve `CustomEntryPointUnmanagedCallersOnly` (sentinel)
and call it; resolve `CustomEntryPoint` (delegate type name) and call it;
resolve `TestFnPtr`, `TestFnPtrWithArgs`, `TestStringInputOutput` (sentinel),
calling each before the next resolution; always through the acquired
delegate, with assembly path root + "DotNetLib.dll" and type
"DotNetLib.Lib, DotNetLib". Bootstrap and delegate acquisition add no such
action. -/
theorem run_component_example_resolution_sequence (env : Env) (root_path : String)
    (s s1 s2 : State) (d p1 p2 p3 p4 p5 p6 : Ptr)
    (hboot : load_hostfxr env none s = .ok true s1)
    (hdeleg : get_dotnet_load_assembly env (root_path ++ "DotNetLib.runtimeconfig.json")
      { s1 with trace := s1.trace ++
          [Event.wprintf_config_path (root_path ++ "DotNetLib.runtimeconfig.json")] } =
      .ok d s2)
    (hd : d ≠ 0)
    (h1 : env.resolve d (root_path ++ "DotNetLib.dll") "DotNetLib.Lib, DotNetLib" "Hello"
      DelegateTypeName.null = (0, some p1))
    (h2 : env.resolve d (root_path ++ "DotNetLib.dll") "DotNetLib.Lib, DotNetLib"
      "CustomEntryPointUnmanagedCallersOnly" DelegateTypeName.UNMANAGEDCALLERSONLY_METHOD =
      (0, some p2))
    (h3 : env.resolve d (root_path ++ "DotNetLib.dll") "DotNetLib.Lib, DotNetLib"
      "CustomEntryPoint"
      (DelegateTypeName.name "DotNetLib.Lib+CustomEntryPointDelegate, DotNetLib") =
      (0, some p3))
    (h4 : env.resolve d (root_path ++ "DotNetLib.dll") "DotNetLib.Lib, DotNetLib"
      "TestFnPtr" DelegateTypeName.UNMANAGEDCALLERSONLY_METHOD = (0, some p4))
    (h5 : env.resolve d (root_path ++ "DotNetLib.dll") "DotNetLib.Lib, DotNetLib"
      "TestFnPtrWithArgs" DelegateTypeName.UNMANAGEDCALLERSONLY_METHOD = (0, some p5))
    (h6 : env.resolve d (root_path ++ "DotNetLib.dll") "DotNetLib.Lib, DotNetLib"
      "TestStringInputOutput" DelegateTypeName.UNMANAGEDCALLERSONLY_METHOD = (0, some p6))
    (hp1 : p1 ≠ 0) (hp2 : p2 ≠ 0) (hp3 : p3 ≠ 0) (hp4 : p4 ≠ 0) (hp5 : p5 ≠ 0)
    (hp6 : p6 ≠ 0) :
    run_component_example env root_path s =
      .ok EXIT_SUCCESS
        { exports := s2.exports,
          trace := s2.trace ++
            [Event.resolve d (root_path ++ "DotNetLib.dll") "DotNetLib.Lib, DotNetLib" "Hello"
               DelegateTypeName.null,
             Event.call_component_entry_point p1 ⟨"from host!", 0⟩
               (sizeof_lib_args env.pointer_size),
             Event.call_component_entry_point p1 ⟨"from host!", 1⟩
               (sizeof_lib_args env.pointer_size),
             Event.call_component_entry_point p1 ⟨"from host!", 2⟩
               (sizeof_lib_args env.pointer_size),
             Event.resolve d (root_path ++ "DotNetLib.dll") "DotNetLib.Lib, DotNetLib"
               "CustomEntryPointUnmanagedCallersOnly"
               DelegateTypeName.UNMANAGEDCALLERSONLY_METHOD,
             Event.call_custom_entry_point p2 ⟨"from host!", -1⟩,
             Event.resolve d (root_path ++ "DotNetLib.dll") "DotNetLib.Lib, DotNetLib"
               "CustomEntryPoint"
               (DelegateTypeName.name "DotNetLib.Lib+CustomEntryPointDelegate, DotNetLib"),
             Event.call_custom_entry_point p3 ⟨"from host!", -1⟩,
             Event.resolve d (root_path ++ "DotNetLib.dll") "DotNetLib.Lib, DotNetLib"
               "TestFnPtr" DelegateTypeName.UNMANAGEDCALLERSONLY_METHOD,
             Event.call_send_callback p4 NativeCallback.test_fn,
             Event.resolve d (root_path ++ "DotNetLib.dll") "DotNetLib.Lib, DotNetLib"
               "TestFnPtrWithArgs" DelegateTypeName.UNMANAGEDCALLERSONLY_METHOD,
             Event.call_send_callback p5 NativeCallback.lambda_int_to_double,
             Event.resolve d (root_path ++ "DotNetLib.dll") "DotNetLib.Lib, DotNetLib"
               "TestStringInputOutput" DelegateTypeName.UNMANAGEDCALLERSONLY_METHOD,
             Event.call_send_callback p6 NativeCallback.lambda_string_to_string] } ∧
    s2.trace.filter Event.isManaged = s.trace.filter Event.isManaged := by
  constructor
  · have hr : List.range 3 = [0, 1, 2] := by decide
    simp [run_component_example, pass_fnptr_to_dotnet, pass_fnptr_to_dotnet_witharguments,
      pass_fnptr_with_strings, hboot, hdeleg, assert, callThrough, hd, h1, h2, h3, h4, h5, h6,
      hp1, hp2, hp3, hp4, hp5, hp6, hr, List.forM, EXIT_SUCCESS]
  · have hs1 := filter_of_appends (p := Event.isManaged)
      (load_hostfxr_appends env none rfl (fun _ => rfl) (fun _ _ => rfl)) s
    rw [hboot] at hs1
    simp only [Result.state] at hs1
    have hs2 := filter_of_appends (p := Event.isManaged)
      (get_dotnet_load_assembly_appends env (root_path ++ "DotNetLib.runtimeconfig.json")
        (fun _ _ => rfl) (fun _ _ _ => rfl) (fun _ _ => rfl) (fun _ => rfl) (fun _ => rfl))
      { s1 with trace := s1.trace ++
          [Event.wprintf_config_path (root_path ++ "DotNetLib.runtimeconfig.json")] }
    rw [hdeleg] at hs2
    simpa [Result.state, List.filter_append, Event.isManaged, hs1] using hs2

/-- Witness for C10, on the all-good run. -/
theorem run_component_example_resolution_sequence_witness :
    run_component_example goodEnv "/app/" initialState =
      .ok EXIT_SUCCESS
        { exports := ⟨101, 102, 103, 104, 105⟩,
          trace := goodDelegateState.trace ++ goodManagedTrace } ∧
    goodDelegateState.trace.filter Event.isManaged =
      initialState.trace.filter Event.isManaged :=
  run_component_example_resolution_sequence goodEnv "/app/" initialState goodBootState
    goodDelegateState 200 301 302 303 304 305 306 (by decide) (by decide) (by decide)
    (by decide) (by decide) (by decide) (by decide) (by decide) (by decide)
    (by decide) (by decide) (by decide) (by decide) (by decide) (by decide)

end NativeHost
